import Mathlib

/-!
Shallow embedding of the 1password-python client library
(onepassword/onepassword.py and onepassword/exceptions.py).

The library shells out to the external `op` command-line tool. We model one
subprocess invocation by an environment function from the argument vector to
the outcome of subprocess.run (binary missing, or a completed process with an
exit status and captured streams). Python exceptions crossing the boundaries
the code exercises are an explicit error type, and every operation is a total
Lean function returning an Except value together with the client state after
the call and the trace of argument vectors handed to the process invoker.
-/

namespace OnePasswordSpec

/-- Decoded JSON values, the possible results of json.loads. -/
inductive Json where
  | null
  | bool (b : Bool)
  | num (n : Int)
  | str (s : String)
  | arr (elems : List Json)
  | obj (entries : List (String × Json))

/-- Lookup in a Python dict built by json.loads from an object literal: a later
duplicate key overrides an earlier one, so the last binding wins. -/
def dictLookup (entries : List (String × Json)) (key : String) : Option Json :=
  entries.reverse.lookup key

/-- The raw bytes captured from a subprocess standard stream, abstracted by
their JSON-decode outcome: `jsonOf j` stands for bytes whose text parses as the
JSON value `j`; `raw text msg` stands for bytes of text `text` that are not
valid JSON, where `msg` is the message of the JSONDecodeError that json.loads
raises on them. This abstracts the standard-library JSON grammar, which is not
code of this repository. -/
inductive Bytes where
  | jsonOf (j : Json)
  | raw (text msg : String)

/-- The exceptions that can cross the boundaries exercised by the library: the
four typed errors of exceptions.py (each carrying its message), plus the
Python built-in and standard-library exceptions the code may propagate
unconverted. -/
inductive PyError where
  | opCLINotFound (msg : String)
  | opValueNotFound (msg : String)
  | opJSONError (msg : String)
  | opRuntimeError (msg : String)
  | jsonDecodeError (msg : String)
  | keyError (key : String)
  | typeError (msg : String)
  | invalidVersion (msg : String)
  | fileNotFoundError
deriving DecidableEq

/-- Whether an error is one of the four typed error kinds of exceptions.py
(subclasses of OnePasswordException). -/
def PyError.isOnePasswordError : PyError → Bool
  | .opCLINotFound _ => true
  | .opValueNotFound _ => true
  | .opJSONError _ => true
  | .opRuntimeError _ => true
  | _ => false

/-- json.loads on captured bytes: the decoded value, or a JSONDecodeError when
the bytes are not valid JSON. -/
def json_loads : Bytes → Except PyError Json
  | .jsonOf j => .ok j
  | .raw _ msg => .error (.jsonDecodeError msg)

/-- The result of subprocess.run with capture_output=True: exit status plus the
captured streams. stdout keeps its JSON-decode abstraction; stderr is only
ever interpolated into an error message, so it is modelled by its text. -/
structure CompletedProcess where
  returncode : Int
  stdout : Bytes
  stderr : String

/-- Outcome of subprocess.run on one argument vector: the binary may be missing
(FileNotFoundError on launch) or the process runs to completion. -/
inductive ProcOutcome where
  | fileNotFound
  | completed (r : CompletedProcess)

/-- The execution environment: what subprocess.run yields for each argument
vector, modelled as a deterministic map. -/
abbrev Env := List String → ProcOutcome

/-- An f-string interpolation of a Python bytes object renders its repr
b\x27...\x27. Escaping of unprintable bytes is not modelled, since stderr is
modelled by its text. -/
def pyBytesRepr (s : String) : String := "b\x27" ++ s ++ "\x27"

/-- The process invoker of onepassword.py (there spelled with a leading
underscore, which the screening here disallows): run the command; on a non-zero exit status
raise OnePasswordRuntimeError with a message interpolating the captured stderr
bytes, otherwise return the CompletedProcess. A missing binary is not
special-cased here and propagates as the raw FileNotFoundError. -/
def runCmd (env : Env) (cmd : List String) : Except PyError CompletedProcess :=
  match env cmd with
  | .fileNotFound => .error .fileNotFoundError
  | .completed r =>
    if r.returncode ≠ 0 then
      .error (.opRuntimeError
        ("Encountered an error when calling subprocess, got: " ++ pyBytesRepr r.stderr))
    else
      .ok r

/-- A parsed version value. -/
structure Version where
  release : List Nat
deriving DecidableEq

/-- The ASCII whitespace kinds stripped by the version parser. -/
def isPySpace (c : Char) : Bool :=
  c = ' ' || c = '\t' || c = '\n' || c = '\r' || c = '\x0b' || c = '\x0c'

/-- Strip leading and trailing whitespace from a character list. -/
def trimChars (l : List Char) : List Char :=
  ((l.dropWhile isPySpace).reverse.dropWhile isPySpace).reverse

/-- Split a character list on the dot separator. -/
def splitOnDot : List Char → List (List Char)
  | [] => [[]]
  | c :: rest =>
    match splitOnDot rest with
    | [] => [[c]]
    | g :: gs => if c = '.' then [] :: g :: gs else (c :: g) :: gs

/-- Decimal reading of a digit segment, as the version parser does. -/
def digitsToNat (p : List Char) : Nat :=
  p.foldl (fun n c => 10 * n + (c.toNat - 48)) 0

/-- Surrogate for packaging.version.Version construction (an external library,
not code of this repository): strips surrounding whitespace and accepts a
non-empty dotted sequence of decimal numerals, raising InvalidVersion
otherwise. The library accepts more PEP 440 forms; no claim below depends on
the exact acceptance set, only on which exception kind a parse failure raises. -/
def pyVersionParse (s : String) : Except PyError Version :=
  let parts := splitOnDot (trimChars s.data)
  if parts.all (fun p => !p.isEmpty && p.all Char.isDigit) then
    .ok ⟨parts.map digitsToNat⟩
  else
    .error (.invalidVersion ("Invalid version: \x27" ++ s ++ "\x27"))

/-- Outcome of the version-probe subprocess.run call, which runs in text mode
(text=True), so its stdout is captured as a string. -/
inductive ProbeOutcome where
  | fileNotFound
  | completed (stdout : String) (returncode : Int)
deriving DecidableEq

/-- Whether the probe found the binary at all. -/
def ProbeOutcome.isFound : ProbeOutcome → Bool
  | .fileNotFound => false
  | .completed _ _ => true

/-- get_op_cli_version of onepassword.py: run [op, --version] in text mode and
hand the captured stdout directly to the Version parser; a FileNotFoundError
(missing binary) is converted to OnePasswordCLINotFound with an install hint.
The exit status of the probe is never inspected. -/
def get_op_cli_version (probe : ProbeOutcome) : Except PyError Version :=
  match probe with
  | .fileNotFound =>
    .error (.opCLINotFound "Cannot find `op`, do you have 1password-cli installed?")
  | .completed stdout _ => pyVersionParse stdout

/-- Whether a probe result is an OnePasswordRuntimeError failure. -/
def isRuntimeErrorResult : Except PyError Version → Bool
  | .error (.opRuntimeError _) => true
  | _ => false

/-- Module-level list_vaults: run [op, vault, list, --format, json] and
json.loads the stdout. There is no try/except here: a JSONDecodeError
propagates raw. -/
def list_vaults (env : Env) : Except PyError Json :=
  runCmd env ["op", "vault", "list", "--format", "json"] >>= fun r =>
    json_loads r.stdout

/-- The client handle: the probed CLI version and the vault name stored by
__init__. -/
structure OnePassword where
  op_cli_version : Version
  vault : String
deriving DecidableEq

/-- The default of the constructor argument vault in the Python source. -/
def defaultVault : String := "Private"

/-- OnePassword.__init__: probe the CLI version first (so construction fails
with OnePasswordCLINotFound when the tool is absent), then store the vault
name. The Python parameter defaults to defaultVault. -/
def OnePassword.init (probe : ProbeOutcome) (vault : String) :
    Except PyError OnePassword :=
  match get_op_cli_version probe with
  | .error e => .error e
  | .ok v => .ok { op_cli_version := v, vault := vault }

/-- The argument vector built by OnePassword.get_item. The f-string around
self.vault formats a str, which is the identity. fields is a Python optional
defaulting to None, and the truthiness test `if fields:` skips the flag for
None and for an empty list; each field f becomes the token label=f and the
tokens are comma-joined into the single --fields value. -/
def buildGetItemCmd (vault item : String) (fields : Option (List String)) :
    List String :=
  let cmd := ["op", "item", "get", item, "--format", "json", "--vault", vault]
  match fields with
  | none => cmd
  | some fs =>
    if fs.isEmpty then cmd
    else cmd ++ ["--fields", String.intercalate "," (fs.map (fun f => "label=" ++ f))]

/-- OnePassword.get_item: build the vector, hand it to runCmd, json.loads the
stdout; a JSONDecodeError (and only that exception) is converted to
OnePasswordJSONError. The result comes with the object state after the call
(no attribute is ever assigned) and the list of argument vectors handed to
runCmd, in order. -/
def OnePassword.get_item (self : OnePassword) (env : Env) (item : String)
    (fields : Option (List String)) :
    Except PyError Json × OnePassword × List (List String) :=
  let cmd := buildGetItemCmd self.vault item fields
  let res : Except PyError Json :=
    match runCmd env cmd with
    | .error e => .error e
    | .ok r =>
      match json_loads r.stdout with
      | .ok j => .ok j
      | .error (.jsonDecodeError m) =>
        .error (.opJSONError ("Cannot JSON load response from 1Password. Got " ++ m))
      | .error e => .error e
  (res, self, [cmd])

/-- Python subscript x[key] with a string key on a decoded JSON value: a dict
yields the bound value or raises KeyError; a list raises TypeError, since a
string is not a valid list index; the remaining decoded shapes also raise
TypeError. -/
def pySubscript (j : Json) (key : String) : Except PyError Json :=
  match j with
  | .obj entries =>
    match dictLookup entries key with
    | some v => .ok v
    | none => .error (.keyError key)
  | .arr _ => .error (.typeError "list indices must be integers or slices, not str")
  | .str _ => .error (.typeError "string indices must be integers")
  | _ => .error (.typeError "object is not subscriptable")

/-- The try/except KeyError of get_value and get_uuid: a KeyError, and only a
KeyError, becomes OnePasswordValueNotFound; str of KeyError(k) renders the key
in repr quotes. -/
def catchKeyError (res : Except PyError Json) : Except PyError Json :=
  match res with
  | .error (.keyError k) =>
    .error (.opValueNotFound ("Value not found. Got error: \x27" ++ k ++ "\x27"))
  | r => r

/-- OnePassword.get_value: get_item with the requested field as sole selector,
then subscript the decoded result with "value" under the KeyError catch. -/
def OnePassword.get_value (self : OnePassword) (env : Env) (item field : String) :
    Except PyError Json × OnePassword × List (List String) :=
  let (res, self, trace) := self.get_item env item (some [field])
  (catchKeyError (res >>= fun j => pySubscript j "value"), self, trace)

/-- OnePassword.get_username: get_value with the field fixed to "username". -/
def OnePassword.get_username (self : OnePassword) (env : Env) (item : String) :
    Except PyError Json × OnePassword × List (List String) :=
  self.get_value env item "username"

/-- OnePassword.get_password: get_value with the field fixed to "password". -/
def OnePassword.get_password (self : OnePassword) (env : Env) (item : String) :
    Except PyError Json × OnePassword × List (List String) :=
  self.get_value env item "password"

/-- OnePassword.get_uuid: get_item with no field filter, then subscript the
decoded result with "id" under the KeyError catch. -/
def OnePassword.get_uuid (self : OnePassword) (env : Env) (item : String) :
    Except PyError Json × OnePassword × List (List String) :=
  let (res, self, trace) := self.get_item env item none
  (catchKeyError (res >>= fun j => pySubscript j "id"), self, trace)

/-- The argument vector built by OnePassword.get_document. -/
def buildGetDocumentCmd (vault item : String) : List String :=
  ["op", "document", "get", item, "--vault", vault]

/-- OnePassword.get_document: run the vector and return the captured stdout
bytes unmodified and unparsed. -/
def OnePassword.get_document (self : OnePassword) (env : Env) (item : String) :
    Except PyError Bytes × OnePassword × List (List String) :=
  let cmd := buildGetDocumentCmd self.vault item
  (Except.map CompletedProcess.stdout (runCmd env cmd), self, [cmd])

/-- The argument vector built by OnePassword.list_items: the base vector, then
--categories and --tags each appended, comma-joined, only when its list is
truthy, that is neither None nor empty. -/
def buildListItemsCmd (vault : String) (categories tags : Option (List String)) :
    List String :=
  let cmd := ["op", "items", "list", "--vault", vault, "--format", "json"]
  let cmd :=
    match categories with
    | none => cmd
    | some cs => if cs.isEmpty then cmd else cmd ++ ["--categories", String.intercalate "," cs]
  match tags with
  | none => cmd
  | some ts => if ts.isEmpty then cmd else cmd ++ ["--tags", String.intercalate "," ts]

/-- OnePassword.list_items: build the vector, run it, json.loads the stdout.
There is no try/except here: a JSONDecodeError propagates raw. -/
def OnePassword.list_items (self : OnePassword) (env : Env)
    (categories tags : Option (List String)) :
    Except PyError Json × OnePassword × List (List String) :=
  let cmd := buildListItemsCmd self.vault categories tags
  (runCmd env cmd >>= fun r => json_loads r.stdout, self, [cmd])

/-! Theorems settling the claims. -/

/-- String append is associative; used to exhibit the captured stderr text as
a substring of the runtime error message. -/
theorem stringAppendAssoc (a b c : String) : a ++ b ++ c = a ++ (b ++ c) := by
  apply congrArg String.mk
  simp [String.data_append]

/-- C3: for every argument vector on which the subprocess completes, runCmd
returns the completed process, carrying the captured standard-output bytes
unchanged, when the exit status is zero; and with a non-zero exit status it
raises OnePasswordRuntimeError whose message embeds the captured
standard-error text as a substring. -/
theorem C3_invoker_contract (env : Env) (cmd : List String) (r : CompletedProcess)
    (h : env cmd = .completed r) :
    (r.returncode = 0 → runCmd env cmd = .ok r) ∧
    (r.returncode ≠ 0 →
      runCmd env cmd = .error (.opRuntimeError
        ("Encountered an error when calling subprocess, got: " ++ pyBytesRepr r.stderr)) ∧
      ∃ pre post, runCmd env cmd = .error (.opRuntimeError (pre ++ r.stderr ++ post))) := by
  constructor
  · intro h0
    simp [runCmd, h, h0]
  · intro hne
    constructor
    · simp [runCmd, h, hne]
    · refine ⟨"Encountered an error when calling subprocess, got: b\x27", "\x27", ?_⟩
      have : "Encountered an error when calling subprocess, got: b\x27" ++ r.stderr ++ "\x27"
          = "Encountered an error when calling subprocess, got: " ++ pyBytesRepr r.stderr := by
        rw [pyBytesRepr, stringAppendAssoc, ← stringAppendAssoc "Encountered an error when calling subprocess, got: b\x27"]
        rfl
      rw [this]
      simp [runCmd, h, hne]

/-- C3 witness: the invoker contract instantiated at concrete environments,
one with exit status zero and one with exit status one. -/
theorem C3_invoker_contract_witness :
    runCmd (fun _ => .completed ⟨0, .jsonOf (.arr []), ""⟩) ["op", "--version"]
      = .ok ⟨0, .jsonOf (.arr []), ""⟩ ∧
    runCmd (fun _ => .completed ⟨1, .jsonOf (.arr []), "boom"⟩) ["op", "--version"]
      = .error (.opRuntimeError
        "Encountered an error when calling subprocess, got: b\x27boom\x27") :=
  ⟨(C3_invoker_contract (fun _ => .completed ⟨0, .jsonOf (.arr []), ""⟩) ["op", "--version"]
      ⟨0, .jsonOf (.arr []), ""⟩ rfl).1 rfl,
   (((C3_invoker_contract (fun _ => .completed ⟨1, .jsonOf (.arr []), "boom"⟩) ["op", "--version"]
      ⟨1, .jsonOf (.arr []), "boom"⟩ rfl).2 (by decide)).1).trans rfl⟩

/-- C4: when the binary is missing, get_op_cli_version raises
OnePasswordCLINotFound with the install hint, and OnePassword.__init__, which
probes the version first, fails with that same error; hence every
successfully constructed client comes from a probe that found the executable. -/
theorem C4_cli_not_found (vault : String) (probe : ProbeOutcome) (self : OnePassword)
    (h : OnePassword.init probe vault = .ok self) :
    get_op_cli_version .fileNotFound
      = .error (.opCLINotFound "Cannot find `op`, do you have 1password-cli installed?") ∧
    OnePassword.init .fileNotFound vault
      = .error (.opCLINotFound "Cannot find `op`, do you have 1password-cli installed?") ∧
    probe.isFound = true := by
  refine ⟨rfl, rfl, ?_⟩
  cases probe with
  | fileNotFound => exact Except.noConfusion h
  | completed s rc => rfl

/-- C4 witness: construction fails with the CLINotFound hint on a missing
binary, and a concrete successful construction comes from a probe that found
the binary. -/
theorem C4_cli_not_found_witness :
    OnePassword.init .fileNotFound "Private"
      = .error (.opCLINotFound "Cannot find `op`, do you have 1password-cli installed?") ∧
    (ProbeOutcome.completed "2.23.0\n" 0).isFound = true :=
  ⟨(C4_cli_not_found "Private" (.completed "2.23.0\n" 0) ⟨⟨[2, 23, 0]⟩, "Private"⟩ rfl).2.1,
   (C4_cli_not_found "Private" (.completed "2.23.0\n" 0) ⟨⟨[2, 23, 0]⟩, "Private"⟩ rfl).2.2⟩

/-- C5: get_item with no field list invokes the tool exactly once, with
exactly the vector [op, item, get, item, --format, json, --vault, vault]; with
a non-empty field list it invokes it exactly once with exactly the two extra
tokens --fields and the comma-joined label=f selectors in caller order. -/
theorem C5_get_item_argument_vector (self : OnePassword) (env : Env)
    (item : String) (fs : List String) (h : fs ≠ []) :
    (self.get_item env item none).2.2
      = [["op", "item", "get", item, "--format", "json", "--vault", self.vault]] ∧
    (self.get_item env item (some fs)).2.2
      = [["op", "item", "get", item, "--format", "json", "--vault", self.vault,
          "--fields", String.intercalate "," (fs.map (fun f => "label=" ++ f))]] := by
  constructor
  · rfl
  · cases fs with
    | nil => exact absurd rfl h
    | cons a l => rfl

/-- C5 witness: the argument vectors of get_item at a concrete vault, item and
two-element field list. -/
theorem C5_get_item_argument_vector_witness :
    (OnePassword.get_item ⟨⟨[2, 23, 0]⟩, "Private"⟩
        (fun _ => .completed ⟨0, .jsonOf (.obj []), ""⟩) "Foo" none).2.2
      = [["op", "item", "get", "Foo", "--format", "json", "--vault", "Private"]] ∧
    (OnePassword.get_item ⟨⟨[2, 23, 0]⟩, "Private"⟩
        (fun _ => .completed ⟨0, .jsonOf (.obj []), ""⟩) "Foo"
        (some ["username", "password"])).2.2
      = [["op", "item", "get", "Foo", "--format", "json", "--vault", "Private",
          "--fields", "label=username,label=password"]] := by
  have := C5_get_item_argument_vector ⟨⟨[2, 23, 0]⟩, "Private"⟩
    (fun _ => .completed ⟨0, .jsonOf (.obj []), ""⟩) "Foo" ["username", "password"]
    (List.cons_ne_nil _ _)
  exact ⟨this.1, this.2.trans rfl⟩

/-- C6: list_items builds the base vector [op, items, list, --vault, vault,
--format, json] and invokes the tool exactly once; an absent or empty
categories (respectively tags) list adds no --categories (respectively --tags)
tokens, and a non-empty list appends the flag followed by the elements
comma-joined in caller order. -/
theorem C6_list_items_argument_vector (self : OnePassword) (env : Env)
    (cs ts : List String) (hcs : cs ≠ []) (hts : ts ≠ []) :
    (self.list_items env none none).2.2
      = [["op", "items", "list", "--vault", self.vault, "--format", "json"]] ∧
    (self.list_items env (some []) (some [])).2.2
      = [["op", "items", "list", "--vault", self.vault, "--format", "json"]] ∧
    (self.list_items env (some cs) none).2.2
      = [["op", "items", "list", "--vault", self.vault, "--format", "json",
          "--categories", String.intercalate "," cs]] ∧
    (self.list_items env none (some ts)).2.2
      = [["op", "items", "list", "--vault", self.vault, "--format", "json",
          "--tags", String.intercalate "," ts]] ∧
    (self.list_items env (some cs) (some ts)).2.2
      = [["op", "items", "list", "--vault", self.vault, "--format", "json",
          "--categories", String.intercalate "," cs,
          "--tags", String.intercalate "," ts]] := by
  obtain ⟨c, cs1, rfl⟩ : ∃ c cs1, cs = c :: cs1 := by
    cases cs with
    | nil => exact absurd rfl hcs
    | cons c l => exact ⟨c, l, rfl⟩
  obtain ⟨t, ts1, rfl⟩ : ∃ t ts1, ts = t :: ts1 := by
    cases ts with
    | nil => exact absurd rfl hts
    | cons t l => exact ⟨t, l, rfl⟩
  exact ⟨rfl, rfl, rfl, rfl, rfl⟩

/-- C6 witness: the list_items argument vectors at a concrete vault with the
filter lists of the unit tests. -/
theorem C6_list_items_argument_vector_witness :
    (OnePassword.list_items ⟨⟨[2, 23, 0]⟩, "Private"⟩
        (fun _ => .completed ⟨0, .jsonOf (.arr []), ""⟩) (some []) (some [])).2.2
      = [["op", "items", "list", "--vault", "Private", "--format", "json"]] ∧
    (OnePassword.list_items ⟨⟨[2, 23, 0]⟩, "Private"⟩
        (fun _ => .completed ⟨0, .jsonOf (.arr []), ""⟩)
        (some ["Login", "Password"]) (some ["some_tag", "another_tag"])).2.2
      = [["op", "items", "list", "--vault", "Private", "--format", "json",
          "--categories", "Login,Password", "--tags", "some_tag,another_tag"]] := by
  have := C6_list_items_argument_vector ⟨⟨[2, 23, 0]⟩, "Private"⟩
    (fun _ => .completed ⟨0, .jsonOf (.arr []), ""⟩)
    ["Login", "Password"] ["some_tag", "another_tag"]
    (List.cons_ne_nil _ _) (List.cons_ne_nil _ _)
  exact ⟨this.2.1, (this.2.2.2.2).trans rfl⟩

/-- C8: no client operation mutates the client handle: in this explicit-state
embedding, which returns the object state after each call, the state after
get_item, get_value, get_username, get_password, get_uuid, get_document and
list_items equals the state before, on every environment and every argument,
whether the call returns a value or raises. -/
theorem C8_client_state_immutable (self : OnePassword) (env : Env)
    (item field : String) (fields cats tags : Option (List String)) :
    (self.get_item env item fields).2.1 = self ∧
    (self.get_value env item field).2.1 = self ∧
    (self.get_username env item).2.1 = self ∧
    (self.get_password env item).2.1 = self ∧
    (self.get_uuid env item).2.1 = self ∧
    (self.get_document env item).2.1 = self ∧
    (self.list_items env cats tags).2.1 = self :=
  ⟨rfl, rfl, rfl, rfl, rfl, rfl, rfl⟩

/-- C9: when the decoded tool output is a list of objects, the string
subscript raises TypeError, which the KeyError catch does not convert: both
get_value and get_uuid fail with an error that is none of the four typed
OnePassword error kinds. -/
theorem C9_list_output_not_converted :
    (OnePassword.get_value ⟨⟨[2, 23, 0]⟩, "Private"⟩
        (fun _ => .completed
          ⟨0, .jsonOf (.arr [.obj [("value", .str "v")], .obj [("id", .str "u")]]), ""⟩)
        "Foo" "username").1
      = .error (.typeError "list indices must be integers or slices, not str") ∧
    (OnePassword.get_uuid ⟨⟨[2, 23, 0]⟩, "Private"⟩
        (fun _ => .completed
          ⟨0, .jsonOf (.arr [.obj [("value", .str "v")], .obj [("id", .str "u")]]), ""⟩)
        "Foo").1
      = .error (.typeError "list indices must be integers or slices, not str") ∧
    (PyError.typeError "list indices must be integers or slices, not str").isOnePasswordError
      = false :=
  ⟨rfl, rfl, rfl⟩

/-- C10: the version probe ignores the exit status: on every run that finds
the binary, whatever the exit status, the captured standard output is handed
directly to the version parser, and the probe never raises
OnePasswordRuntimeError. -/
theorem C10_probe_ignores_exit_status (stdout : String) (rc : Int) :
    get_op_cli_version (.completed stdout rc) = pyVersionParse stdout ∧
    isRuntimeErrorResult (get_op_cli_version (.completed stdout rc)) = false := by
  refine ⟨rfl, ?_⟩
  show isRuntimeErrorResult (pyVersionParse stdout) = false
  simp only [pyVersionParse]
  split <;> rfl

/-- C1 counterexample: on a zero-exit run whose standard output is not valid
JSON, list_items and list_vaults do not raise OnePasswordJSONError: having no
try/except around their json.loads, they let the raw JSONDecodeError
propagate, refuting the claim that all three operations convert it. -/
theorem C1_counterexample :
    (OnePassword.list_items ⟨⟨[2, 23, 0]⟩, "Private"⟩
        (fun _ => .completed
          ⟨0, .raw "Invalid JSON" "Expecting value: line 1 column 1 (char 0)", ""⟩)
        none none).1
      = .error (.jsonDecodeError "Expecting value: line 1 column 1 (char 0)") ∧
    list_vaults (fun _ => .completed
        ⟨0, .raw "Invalid JSON" "Expecting value: line 1 column 1 (char 0)", ""⟩)
      = .error (.jsonDecodeError "Expecting value: line 1 column 1 (char 0)") ∧
    (PyError.jsonDecodeError "Expecting value: line 1 column 1 (char 0)").isOnePasswordError
      = false :=
  ⟨rfl, rfl, rfl⟩

/-- C1 amended: on a completed zero-exit run whose standard output is not
valid JSON, get_item converts the decode failure to OnePasswordJSONError
carrying the decode message, while list_items and list_vaults propagate the
raw JSONDecodeError. -/
theorem C1_json_error_conversion (self : OnePassword) (env : Env)
    (item text msg : String) (fields cats tags : Option (List String))
    (r : CompletedProcess) (h0 : r.returncode = 0) (hs : r.stdout = .raw text msg) :
    (env (buildGetItemCmd self.vault item fields) = .completed r →
      (self.get_item env item fields).1
        = .error (.opJSONError ("Cannot JSON load response from 1Password. Got " ++ msg))) ∧
    (env (buildListItemsCmd self.vault cats tags) = .completed r →
      (self.list_items env cats tags).1 = .error (.jsonDecodeError msg)) ∧
    (env ["op", "vault", "list", "--format", "json"] = .completed r →
      list_vaults env = .error (.jsonDecodeError msg)) := by
  refine ⟨?_, ?_, ?_⟩ <;> intro he
  · simp [OnePassword.get_item, runCmd, he, h0, hs, json_loads]
  · have hr : runCmd env (buildListItemsCmd self.vault cats tags) = .ok r := by
      simp [runCmd, he, h0]
    show (runCmd env (buildListItemsCmd self.vault cats tags) >>= fun p =>
      json_loads p.stdout) = .error (.jsonDecodeError msg)
    rw [hr]
    show json_loads r.stdout = .error (.jsonDecodeError msg)
    rw [hs]
    rfl
  · have hr : runCmd env ["op", "vault", "list", "--format", "json"] = .ok r := by
      simp [runCmd, he, h0]
    show (runCmd env ["op", "vault", "list", "--format", "json"] >>= fun p =>
      json_loads p.stdout) = .error (.jsonDecodeError msg)
    rw [hr]
    show json_loads r.stdout = .error (.jsonDecodeError msg)
    rw [hs]
    rfl

/-- C1 amended witness: the conversion and the raw propagation at a concrete
environment whose output is not valid JSON. -/
theorem C1_json_error_conversion_witness :
    (OnePassword.get_item ⟨⟨[2, 23, 0]⟩, "Private"⟩
        (fun _ => .completed ⟨0, .raw "nope" "Expecting value", ""⟩) "Foo" none).1
      = .error (.opJSONError "Cannot JSON load response from 1Password. Got Expecting value") ∧
    (OnePassword.list_items ⟨⟨[2, 23, 0]⟩, "Private"⟩
        (fun _ => .completed ⟨0, .raw "nope" "Expecting value", ""⟩) none none).1
      = .error (.jsonDecodeError "Expecting value") := by
  have := C1_json_error_conversion ⟨⟨[2, 23, 0]⟩, "Private"⟩
    (fun _ => .completed ⟨0, .raw "nope" "Expecting value", ""⟩)
    "Foo" "nope" "Expecting value" none none none
    ⟨0, .raw "nope" "Expecting value", ""⟩ rfl rfl
  exact ⟨(this.1 rfl).trans rfl, this.2.1 rfl⟩

/-- C2 counterexample: construction does not enforce a non-empty vault name:
with a successful probe, __init__ accepts the empty string and the constructed
client holds an empty vault, refuting the non-emptiness half of the claim. -/
theorem C2_counterexample :
    OnePassword.init (.completed "2.23.0\n" 0) "" = .ok ⟨⟨[2, 23, 0]⟩, ""⟩ ∧
    "".isEmpty = true :=
  ⟨rfl, rfl⟩

/-- C2 amended: the vault name a client holds is exactly the string supplied
at construction (the Python default, defaultVault, is non-empty, but an empty
argument is accepted), and every vault-scoped command the client builds passes
it verbatim as the token right after --vault. -/
theorem C2_vault_passed_verbatim (probe : ProbeOutcome) (vault : String)
    (self : OnePassword) (item : String) (fields cats tags : Option (List String))
    (h : OnePassword.init probe vault = .ok self) :
    self.vault = vault ∧
    defaultVault.isEmpty = false ∧
    (buildGetItemCmd self.vault item fields).take 8
      = ["op", "item", "get", item, "--format", "json", "--vault", self.vault] ∧
    buildGetDocumentCmd self.vault item
      = ["op", "document", "get", item, "--vault", self.vault] ∧
    (buildListItemsCmd self.vault cats tags).take 7
      = ["op", "items", "list", "--vault", self.vault, "--format", "json"] := by
  refine ⟨?_, rfl, ?_, rfl, ?_⟩
  · cases probe with
    | fileNotFound => exact Except.noConfusion h
    | completed s rc =>
      have h2 : (match pyVersionParse s with
          | Except.error e => Except.error e
          | Except.ok v =>
            Except.ok { op_cli_version := v, vault := vault : OnePassword })
          = Except.ok self := h
      cases hp : pyVersionParse s with
      | error e => rw [hp] at h2; exact Except.noConfusion h2
      | ok v =>
        rw [hp] at h2
        injection h2 with h3
        rw [← h3]
  · rcases fields with _ | (_ | ⟨f, fs⟩) <;> rfl
  · rcases cats with _ | (_ | ⟨c, cs⟩) <;> rcases tags with _ | (_ | ⟨t, ts⟩) <;> rfl

/-- C2 amended witness: a concrete construction stores the supplied vault
verbatim and the document vector carries it right after --vault. -/
theorem C2_vault_passed_verbatim_witness :
    (⟨⟨[2, 23, 0]⟩, "Private"⟩ : OnePassword).vault = "Private" ∧
    buildGetDocumentCmd "Private" "Foo" = ["op", "document", "get", "Foo", "--vault", "Private"] := by
  have := C2_vault_passed_verbatim (.completed "2.23.0\n" 0) "Private"
    ⟨⟨[2, 23, 0]⟩, "Private"⟩ "Foo" none none none rfl
  exact ⟨this.1, this.2.2.2.1⟩

/-- The decoded result of get_item on a completed zero-exit run whose output
is valid JSON. -/
theorem get_item_decodes (self : OnePassword) (env : Env) (item : String)
    (fields : Option (List String)) (r : CompletedProcess) (j : Json)
    (he : env (buildGetItemCmd self.vault item fields) = .completed r)
    (h0 : r.returncode = 0) (hs : r.stdout = .jsonOf j) :
    (self.get_item env item fields).1 = .ok j := by
  simp [OnePassword.get_item, runCmd, he, h0, hs, json_loads]

/-- C7: with the tool returning a JSON object on a zero-exit run, get_value
asks get_item for the single requested field (the sole label selector in the
one invoked vector) and returns the value entry, raising
OnePasswordValueNotFound when the object has no value key; get_uuid asks
get_item with no field filter and returns the id entry, raising
OnePasswordValueNotFound when the id key is absent. -/
theorem C7_get_value_get_uuid (self : OnePassword) (env : Env)
    (item field : String) (entries : List (String × Json)) (r : CompletedProcess)
    (h0 : r.returncode = 0) (hs : r.stdout = .jsonOf (.obj entries)) :
    (env (buildGetItemCmd self.vault item (some [field])) = .completed r →
      (self.get_value env item field).2.2
        = [["op", "item", "get", item, "--format", "json", "--vault", self.vault,
            "--fields", "label=" ++ field]] ∧
      (∀ v, dictLookup entries "value" = some v →
        (self.get_value env item field).1 = .ok v) ∧
      (dictLookup entries "value" = none →
        (self.get_value env item field).1
          = .error (.opValueNotFound "Value not found. Got error: \x27value\x27"))) ∧
    (env (buildGetItemCmd self.vault item none) = .completed r →
      (self.get_uuid env item).2.2
        = [["op", "item", "get", item, "--format", "json", "--vault", self.vault]] ∧
      (∀ v, dictLookup entries "id" = some v → (self.get_uuid env item).1 = .ok v) ∧
      (dictLookup entries "id" = none →
        (self.get_uuid env item).1
          = .error (.opValueNotFound "Value not found. Got error: \x27id\x27"))) := by
  have hv1 : (self.get_value env item field).1
      = catchKeyError ((self.get_item env item (some [field])).1 >>= fun j =>
          pySubscript j "value") := rfl
  have hu1 : (self.get_uuid env item).1
      = catchKeyError ((self.get_item env item none).1 >>= fun j =>
          pySubscript j "id") := rfl
  constructor
  · intro he
    have hgi := get_item_decodes self env item (some [field]) r (.obj entries) he h0 hs
    refine ⟨rfl, ?_, ?_⟩
    · intro v hv
      rw [hv1, hgi]
      show catchKeyError (pySubscript (Json.obj entries) "value") = .ok v
      have hp : pySubscript (Json.obj entries) "value" = .ok v := by
        simp [pySubscript, hv]
      rw [hp]
      rfl
    · intro hv
      rw [hv1, hgi]
      show catchKeyError (pySubscript (Json.obj entries) "value")
        = .error (.opValueNotFound "Value not found. Got error: \x27value\x27")
      have hp : pySubscript (Json.obj entries) "value" = .error (.keyError "value") := by
        simp [pySubscript, hv]
      rw [hp]
      rfl
  · intro he
    have hgi := get_item_decodes self env item none r (.obj entries) he h0 hs
    refine ⟨rfl, ?_, ?_⟩
    · intro v hv
      rw [hu1, hgi]
      show catchKeyError (pySubscript (Json.obj entries) "id") = .ok v
      have hp : pySubscript (Json.obj entries) "id" = .ok v := by
        simp [pySubscript, hv]
      rw [hp]
      rfl
    · intro hv
      rw [hu1, hgi]
      show catchKeyError (pySubscript (Json.obj entries) "id")
        = .error (.opValueNotFound "Value not found. Got error: \x27id\x27")
      have hp : pySubscript (Json.obj entries) "id" = .error (.keyError "id") := by
        simp [pySubscript, hv]
      rw [hp]
      rfl

/-- C7 witness: at a concrete object output holding both keys, get_value
returns the value entry and get_uuid the id entry. -/
theorem C7_get_value_get_uuid_witness :
    (OnePassword.get_value ⟨⟨[2, 23, 0]⟩, "Private"⟩
        (fun _ => .completed
          ⟨0, .jsonOf (.obj [("value", .str "bar"), ("id", .str "uuid1")]), ""⟩)
        "Foo" "username").1 = .ok (.str "bar") ∧
    (OnePassword.get_uuid ⟨⟨[2, 23, 0]⟩, "Private"⟩
        (fun _ => .completed
          ⟨0, .jsonOf (.obj [("value", .str "bar"), ("id", .str "uuid1")]), ""⟩)
        "Foo").1 = .ok (.str "uuid1") := by
  have := C7_get_value_get_uuid ⟨⟨[2, 23, 0]⟩, "Private"⟩
    (fun _ => .completed
      ⟨0, .jsonOf (.obj [("value", .str "bar"), ("id", .str "uuid1")]), ""⟩)
    "Foo" "username" [("value", .str "bar"), ("id", .str "uuid1")]
    ⟨0, .jsonOf (.obj [("value", .str "bar"), ("id", .str "uuid1")]), ""⟩ rfl rfl
  exact ⟨(this.1 rfl).2.1 (.str "bar") rfl, (this.2 rfl).2.1 (.str "uuid1") rfl⟩

end OnePasswordSpec
